import Mathlib

/-!
Verification of the PC104 standoff CAD generator (`cad/pc104_stand.py`).

The script builds one solid by a fixed sequence of CSG operations (add or
subtract an axis-aligned box or a z-axis cylinder, with one fillet on the
base plate's vertical edges) and exports it.  We embed the two
configuration records, the geometry recipe as a list of CSG steps, and a
membership semantics over rational coordinates, then prove the spec's
claims about them.
-/

/-- The `bd.Align` alignment constants used by the script. -/
inductive Align
  | min
  | center
  | max
  deriving DecidableEq, Repr

/-- The interval (relative to the translation point) that a primitive of the
given size occupies along an axis with the given alignment, as in build123d:
`MIN` anchors the low face at the origin, `CENTER` centers it, `MAX` anchors
the high face. -/
def alignInterval (a : Align) (size : ℚ) : ℚ × ℚ :=
  match a with
  | Align.min => (0, size)
  | Align.center => (-(size / 2), size / 2)
  | Align.max => (-size, 0)

/-- A translated primitive solid as the script creates them:
`bd.Box(lx, ly, lz, align=...).translate((tx, ty, tz))`,
`bd.Cylinder(height, radius, align=...).translate((tx, ty, tz))`, and
`.fillet(radius, edge_list=vertical edges)` applied to a shape. -/
inductive Shape
  | Box (lx ly lz : ℚ) (ax ay az : Align) (tx ty tz : ℚ)
  | Cylinder (height radius : ℚ) (ax ay az : Align) (tx ty tz : ℚ)
  | FilletZ (r : ℚ) (s : Shape)
  deriving DecidableEq, Repr

/-- A CSG step: `p += shape` or `p -= shape`. -/
inductive Op
  | add
  | sub
  deriving DecidableEq, Repr

/-- Interval membership. -/
def inIv (iv : ℚ × ℚ) (v : ℚ) : Bool :=
  decide (iv.1 ≤ v) && decide (v ≤ iv.2)

/-- Rounded-corner test for a vertical-edge fillet of radius `r` on the
rectangle `[xlo, xhi] × [ylo, yhi]`: a point already inside the rectangle
is kept unless it lies in one of the four corner squares of side `r` but
outside the corresponding quarter-circle. -/
def cornerKeep (r xlo xhi ylo yhi x y : ℚ) : Bool :=
  !(decide (x < xlo + r) && decide (y < ylo + r)
      && decide (r * r < (x - (xlo + r)) * (x - (xlo + r)) + (y - (ylo + r)) * (y - (ylo + r)))) &&
  !(decide (xhi - r < x) && decide (y < ylo + r)
      && decide (r * r < (x - (xhi - r)) * (x - (xhi - r)) + (y - (ylo + r)) * (y - (ylo + r)))) &&
  !(decide (x < xlo + r) && decide (yhi - r < y)
      && decide (r * r < (x - (xlo + r)) * (x - (xlo + r)) + (y - (yhi - r)) * (y - (yhi - r)))) &&
  !(decide (xhi - r < x) && decide (yhi - r < y)
      && decide (r * r < (x - (xhi - r)) * (x - (xhi - r)) + (y - (yhi - r)) * (y - (yhi - r))))

/-- Membership of the point `(x, y, z)` in a shape.  A box occupies the
aligned interval along each axis, shifted by the translation.  A cylinder
is circular in `x`/`y` (its axis placed by aligning its `2r × 2r` bounding
square) and occupies the aligned height interval in `z`.  A vertical-edge
fillet on a box keeps the box minus the four corner regions outside the
quarter-circles; the script only fillets the base-plate box. -/
def memShape : Shape → ℚ → ℚ → ℚ → Bool
  | Shape.Box lx ly lz ax ay az tx ty tz, x, y, z =>
      inIv (alignInterval ax lx) (x - tx)
        && inIv (alignInterval ay ly) (y - ty)
        && inIv (alignInterval az lz) (z - tz)
  | Shape.Cylinder h r ax ay az tx ty tz, x, y, z =>
      let cx := tx + ((alignInterval ax (2 * r)).1 + r)
      let cy := ty + ((alignInterval ay (2 * r)).1 + r)
      decide ((x - cx) * (x - cx) + (y - cy) * (y - cy) ≤ r * r)
        && inIv (alignInterval az h) (z - tz)
  | Shape.FilletZ r (Shape.Box lx ly lz ax ay az tx ty tz), x, y, z =>
      memShape (Shape.Box lx ly lz ax ay az tx ty tz) x y z
        && cornerKeep r
            (tx + (alignInterval ax lx).1) (tx + (alignInterval ax lx).2)
            (ty + (alignInterval ay ly).1) (ty + (alignInterval ay ly).2) x y
  | Shape.FilletZ _ s, x, y, z => memShape s x y z

/-- Membership of a point in the solid built by a list of CSG steps,
folded left as the script accumulates `p`. -/
def memSolid (steps : List (Op × Shape)) (x y z : ℚ) : Bool :=
  List.foldl
    (fun acc st =>
      match st.1 with
      | Op.add => acc || memShape st.2 x y z
      | Op.sub => acc && !(memShape st.2 x y z))
    false steps

/-- Dataclass `PC104Spec`: connector pin grid and board outline, with the
script's defaults. -/
structure PC104Spec where
  top_left_pin_coord : ℚ × ℚ := (0, 0)
  pin_count_x : ℤ := 4
  pin_count_y : ℤ := 26
  pin_pitch : ℚ := 2.54
  box_width_x : ℚ := 94.54
  box_height_y : ℚ := 88.1
  box_top_left_coord : ℚ × ℚ := (-4.4, 11.63)
  deriving DecidableEq, Repr

/-- Property `PC104Spec.hole_coord_list`: the dictionary of the four named hole
coordinates, in insertion order. -/
def PC104Spec.hole_coord_list (_ : PC104Spec) : List (String × ℚ × ℚ) :=
  [("NW", (0, 5.08)),
   ("NE", (85.73, 7.62)),
   ("SW", (0, -68.58)),
   ("SE", (85.73, -72.39))]

/-- Property `PC104Spec.stack_headers_center_coord`: center of the stack-header
pin grid. -/
def PC104Spec.stack_headers_center_coord (s : PC104Spec) : ℚ × ℚ :=
  (s.top_left_pin_coord.1 + ((s.pin_count_x - 1 : ℤ) : ℚ) * s.pin_pitch / 2,
   s.top_left_pin_coord.2 - ((s.pin_count_y - 1 : ℤ) : ℚ) * s.pin_pitch / 2)

/-- Method `PC104Spec.__post_init__`: its body is empty, so construction-time
validation always succeeds. -/
def PC104Spec.post_init (_ : PC104Spec) : Except String Unit :=
  Except.ok ()

/-- Dataclass `StandSpec`: plate and standoff dimensions, with the
script's defaults. -/
structure StandSpec where
  base_plate_thickness : ℚ := 2.0
  plate_plate_corner_radius : ℚ := 3.0
  standoff_total_height : ℚ := 9.5
  standoff_id : ℚ := 3.5
  standoff_od_east : ℚ := 6.5
  standoff_od_west : ℚ := 5.8
  deriving DecidableEq, Repr

/-- Method `StandSpec.__post_init__`: its body is empty, so construction-time
validation always succeeds. -/
def StandSpec.post_init (_ : StandSpec) : Except String Unit :=
  Except.ok ()

/-- Record `PC104Spec()`: the record built from all defaults by the driver. -/
def pc104_default : PC104Spec := {}

/-- Record `StandSpec()`: the record built from all defaults by the driver. -/
def stand_default : StandSpec := {}

/-- Function `make_pc104_standoff`: the CSG recipe of the script, in program order:
add the filleted base plate; for each named hole add the standoff cylinder
(east diameter for NE/SE, west otherwise) and subtract the inner-diameter
cutter (base at `-10` for NW, at the plate thickness otherwise); finally
subtract the stack-header clearance box centered on
`stack_headers_center_coord`. -/
def make_pc104_standoff (pc104 : PC104Spec) (part_spec : StandSpec) :
    List (Op × Shape) :=
  [(Op.add,
    Shape.FilletZ part_spec.plate_plate_corner_radius
      (Shape.Box pc104.box_width_x pc104.box_height_y
        part_spec.base_plate_thickness
        Align.min Align.max Align.min
        pc104.box_top_left_coord.1 pc104.box_top_left_coord.2 0))]
  ++ (pc104.hole_coord_list.flatMap (fun h =>
    [(Op.add,
      Shape.Cylinder part_spec.standoff_total_height
        ((if h.1 == "NE" || h.1 == "SE" then part_spec.standoff_od_east
          else part_spec.standoff_od_west) / 2)
        Align.center Align.center Align.min
        h.2.1 h.2.2 0),
     (Op.sub,
      Shape.Cylinder 20 (part_spec.standoff_id / 2)
        Align.center Align.center Align.min
        h.2.1 h.2.2
        (if h.1 != "NW" then part_spec.base_plate_thickness else -10))]))
  ++ [(Op.sub,
    Shape.Box ((pc104.pin_count_x : ℚ) * pc104.pin_pitch + 8)
      ((pc104.pin_count_y : ℚ) * pc104.pin_pitch + 3)
      20
      Align.center Align.center Align.min
      pc104.stack_headers_center_coord.1 pc104.stack_headers_center_coord.2 0)]

/-- Membership of a point in the union of the shapes that the recipe ADDS
(the base plate and the four standoff cylinders), ignoring subtractions. -/
def memAddedShapes (steps : List (Op × Shape)) (x y z : ℚ) : Bool :=
  steps.any (fun st =>
    match st.1 with
    | Op.add => memShape st.2 x y z
    | Op.sub => false)

/-- The board footprint region claimed by the spec: the rectangle of size
`box_width_x × box_height_y` anchored at `box_top_left_coord` (x grows to
the right of the anchor, y downward from it), together with
`0 ≤ z ≤ standoff_total_height`. -/
def inFootprint (pc104 : PC104Spec) (ps : StandSpec) (x y z : ℚ) : Bool :=
  decide (pc104.box_top_left_coord.1 ≤ x)
    && decide (x ≤ pc104.box_top_left_coord.1 + pc104.box_width_x)
    && decide (pc104.box_top_left_coord.2 - pc104.box_height_y ≤ y)
    && decide (y ≤ pc104.box_top_left_coord.2)
    && decide (0 ≤ z)
    && decide (z ≤ ps.standoff_total_height)

/-- The z-interval occupied by a shape (a vertical-edge fillet does not
change the z-extent). -/
def shapeZInterval : Shape → ℚ × ℚ
  | Shape.Box _ _ lz _ _ az _ _ tz =>
      (tz + (alignInterval az lz).1, tz + (alignInterval az lz).2)
  | Shape.Cylinder h _ _ _ az _ _ tz =>
      (tz + (alignInterval az h).1, tz + (alignInterval az h).2)
  | Shape.FilletZ _ s => shapeZInterval s

/-- Observable actions of the `__main__` driver for one part. -/
inductive DriverEvent
  | warn_not_manifold (name : String)
  | export_stl_file (name : String)
  | export_step_file (name : String)
  deriving DecidableEq, Repr

/-- The per-part tail of the driver loop: warn when the manifold check
fails, then export the STL file and the STEP file unconditionally. -/
def driver_part_events (name : String) (is_manifold : Bool) : List DriverEvent :=
  (if is_manifold then [] else [DriverEvent.warn_not_manifold name])
    ++ [DriverEvent.export_stl_file name, DriverEvent.export_step_file name]

/-- Whether a driver event is one of the two file exports. -/
def isExportEvent : DriverEvent → Bool
  | DriverEvent.warn_not_manifold _ => false
  | DriverEvent.export_stl_file _ => true
  | DriverEvent.export_step_file _ => true

/-- C1: for every `PC104Spec`, `hole_coord_list` is exactly the mapping
NW ↦ (0, 5.08), NE ↦ (85.73, 7.62), SW ↦ (0, −68.58), SE ↦ (85.73, −72.39),
its keys are exactly "NW", "NE", "SW", "SE", and it does not depend on any
field of the record. -/
theorem hole_coord_list_spec (s : PC104Spec) :
    s.hole_coord_list =
      [("NW", ((0 : ℚ), (5.08 : ℚ))),
       ("NE", (85.73, 7.62)),
       ("SW", (0, -68.58)),
       ("SE", (85.73, -72.39))]
    ∧ s.hole_coord_list.map Prod.fst = ["NW", "NE", "SW", "SE"]
    ∧ ∀ t : PC104Spec, s.hole_coord_list = t.hole_coord_list := by
  exact ⟨rfl, rfl, fun _ => rfl⟩

/-- C3: for the default `PC104Spec`, `stack_headers_center_coord` equals
(3.81, −31.75), and in general it equals
(top_left_pin.x + (pin_count_x − 1)·pitch/2,
 top_left_pin.y − (pin_count_y − 1)·pitch/2). -/
theorem stack_headers_center_coord_spec (s : PC104Spec) :
    pc104_default.stack_headers_center_coord = (3.81, -31.75)
    ∧ s.stack_headers_center_coord =
        (s.top_left_pin_coord.1 + ((s.pin_count_x : ℚ) - 1) * s.pin_pitch / 2,
         s.top_left_pin_coord.2 - ((s.pin_count_y : ℚ) - 1) * s.pin_pitch / 2) := by
  constructor
  · simp only [PC104Spec.stack_headers_center_coord, pc104_default]
    norm_num
  · simp only [PC104Spec.stack_headers_center_coord, Prod.mk.injEq]
    constructor <;> push_cast <;> ring

/-- C6: increasing `pin_count_y` by one while holding every other field
fixed leaves the X coordinate of `stack_headers_center_coord` unchanged and
shifts its Y coordinate by exactly −pin_pitch/2. -/
theorem stack_headers_center_coord_pin_count_y_step (s : PC104Spec) :
    ({ s with pin_count_y := s.pin_count_y + 1 } : PC104Spec).stack_headers_center_coord
      = (s.stack_headers_center_coord.1,
         s.stack_headers_center_coord.2 - s.pin_pitch / 2) := by
  simp only [PC104Spec.stack_headers_center_coord, Prod.mk.injEq]
  constructor <;> (push_cast; try ring)

/-- C8: `__post_init__` performs no checks on either record, so
construction never fails, including for dimensionally inconsistent values
such as an inner diameter larger than both outer diameters or a negative
plate thickness. -/
theorem post_init_never_fails (s : PC104Spec) (t : StandSpec) :
    PC104Spec.post_init s = Except.ok ()
    ∧ StandSpec.post_init t = Except.ok ()
    ∧ StandSpec.post_init
        { base_plate_thickness := -1, standoff_id := 100,
          standoff_od_east := 6.5, standoff_od_west := 5.8 } = Except.ok () := by
  exact ⟨rfl, rfl, rfl⟩

/-- C9: in the driver, a failed manifold check only adds a warning event;
the STL and STEP exports are emitted in both the manifold and the
non-manifold case, and the export events do not depend on the outcome of
the check. -/
theorem driver_exports_unconditional (name : String) (b : Bool) :
    (driver_part_events name b).filter isExportEvent =
      [DriverEvent.export_stl_file name, DriverEvent.export_step_file name]
    ∧ DriverEvent.export_stl_file name ∈ driver_part_events name b
    ∧ DriverEvent.export_step_file name ∈ driver_part_events name b
    ∧ (DriverEvent.warn_not_manifold name ∈ driver_part_events name b ↔ b = false) := by
  cases b <;> simp [driver_part_events, isExportEvent]

/-- C2 counterexample: the claim that every hole cutter fully penetrates
the solid fails at the "NE" hole of the default build.  The NE cutter is
the cylinder of radius `standoff_id / 2` and length 20 based at
z = `base_plate_thickness`; the point (85.73, 7.62, 1) lies on the NE hole
axis inside the plate's z-extent, is outside the cutter's z-interval, and
is still inside the finished solid, so the hole does not go through the
plate there. -/
theorem ne_cutter_not_through_counterexample :
    (make_pc104_standoff pc104_default stand_default).get? 4 =
      some (Op.sub,
        Shape.Cylinder 20 (stand_default.standoff_id / 2)
          Align.center Align.center Align.min
          85.73 7.62 stand_default.base_plate_thickness)
    ∧ inIv (alignInterval Align.min stand_default.base_plate_thickness) (1 - 0) = true
    ∧ inIv (alignInterval Align.min 20) ((1 : ℚ) - stand_default.base_plate_thickness) = false
    ∧ memSolid (make_pc104_standoff pc104_default stand_default) 85.73 7.62 1 = true := by
  refine ⟨rfl, ?_, ?_, ?_⟩
  · norm_num [inIv, alignInterval, stand_default]
  · norm_num [inIv, alignInterval, stand_default]
  · norm_num [memSolid, make_pc104_standoff, memShape, inIv, cornerKeep, alignInterval,
      PC104Spec.hole_coord_list, PC104Spec.stack_headers_center_coord,
      pc104_default, stand_default]
    simp only [String.reduceEq, reduceIte]
    norm_num

/-- C2 (amended): each of the four hole cutters is a subtracted cylinder
of radius `standoff_id / 2` and length 20, based at z = −10 for "NW" and
at z = `base_plate_thickness` for "NE", "SW" and "SE".  For the default
dimensions, the NW cutter's z-interval [−10, 10] covers the whole occupied
z-extent [0, standoff_total_height], while the other three cutters start
at the plate's top face, so the plate thickness itself (0 ≤ z < 2) is left
undrilled there. -/
theorem hole_cutters_spec (pc104 : PC104Spec) (ps : StandSpec) :
    (make_pc104_standoff pc104 ps).get? 2 =
      some (Op.sub,
        Shape.Cylinder 20 (ps.standoff_id / 2) Align.center Align.center Align.min
          0 5.08 (-10))
    ∧ (make_pc104_standoff pc104 ps).get? 4 =
      some (Op.sub,
        Shape.Cylinder 20 (ps.standoff_id / 2) Align.center Align.center Align.min
          85.73 7.62 ps.base_plate_thickness)
    ∧ (make_pc104_standoff pc104 ps).get? 6 =
      some (Op.sub,
        Shape.Cylinder 20 (ps.standoff_id / 2) Align.center Align.center Align.min
          0 (-68.58) ps.base_plate_thickness)
    ∧ (make_pc104_standoff pc104 ps).get? 8 =
      some (Op.sub,
        Shape.Cylinder 20 (ps.standoff_id / 2) Align.center Align.center Align.min
          85.73 (-72.39) ps.base_plate_thickness)
    ∧ ((-10 : ℚ) ≤ 0 ∧ stand_default.standoff_total_height ≤ -10 + 20)
    ∧ 0 < stand_default.base_plate_thickness := by
  refine ⟨rfl, rfl, rfl, rfl, ⟨?_, ?_⟩, ?_⟩ <;> norm_num [stand_default]

/-- C4: the standoff cylinder added at each hole has outer radius
`standoff_od_east / 2` at the "NE" and "SE" holes and
`standoff_od_west / 2` at the "NW" and "SW" holes (the two fields are
diameters, halved to radii). -/
theorem standoff_radii_spec (pc104 : PC104Spec) (ps : StandSpec) :
    (make_pc104_standoff pc104 ps).get? 1 =
      some (Op.add,
        Shape.Cylinder ps.standoff_total_height (ps.standoff_od_west / 2)
          Align.center Align.center Align.min 0 5.08 0)
    ∧ (make_pc104_standoff pc104 ps).get? 3 =
      some (Op.add,
        Shape.Cylinder ps.standoff_total_height (ps.standoff_od_east / 2)
          Align.center Align.center Align.min 85.73 7.62 0)
    ∧ (make_pc104_standoff pc104 ps).get? 5 =
      some (Op.add,
        Shape.Cylinder ps.standoff_total_height (ps.standoff_od_west / 2)
          Align.center Align.center Align.min 0 (-68.58) 0)
    ∧ (make_pc104_standoff pc104 ps).get? 7 =
      some (Op.add,
        Shape.Cylinder ps.standoff_total_height (ps.standoff_od_east / 2)
          Align.center Align.center Align.min 85.73 (-72.39) 0) :=
  ⟨rfl, rfl, rfl, rfl⟩

/-- C5: the last step of the recipe subtracts the header-clearance box of
x-size `pin_count_x · pin_pitch + 8` and y-size `pin_count_y · pin_pitch + 3`,
centered in x and y on `stack_headers_center_coord`, spanning z from 0 up
to height 20; with the default dimensions that z-interval covers the whole
plate-plus-standoff stack. -/
theorem header_clearance_spec (pc104 : PC104Spec) (ps : StandSpec) :
    (make_pc104_standoff pc104 ps).get? 9 =
      some (Op.sub,
        Shape.Box ((pc104.pin_count_x : ℚ) * pc104.pin_pitch + 8)
          ((pc104.pin_count_y : ℚ) * pc104.pin_pitch + 3) 20
          Align.center Align.center Align.min
          pc104.stack_headers_center_coord.1 pc104.stack_headers_center_coord.2 0)
    ∧ (make_pc104_standoff pc104 ps).length = 10
    ∧ ((make_pc104_standoff pc104 ps).get? 9).map (fun st => shapeZInterval st.2)
        = some (0, 20)
    ∧ stand_default.standoff_total_height ≤ 20
    ∧ stand_default.base_plate_thickness ≤ 20 := by
  refine ⟨rfl, rfl, ?_, ?_, ?_⟩
  · simp [make_pc104_standoff, PC104Spec.hole_coord_list, shapeZInterval, alignInterval]
  · norm_num [stand_default]
  · norm_num [stand_default]

/-- C10: every standoff cylinder (and the base plate) is added with
`Align.MIN` in z at z = 0, the plate's bottom face, so a standoff occupies
z ∈ [0, standoff_total_height]: the height is measured from the plate
bottom, and the protrusion above the plate top is
`standoff_total_height − base_plate_thickness`, which is 7.5 for the
defaults. -/
theorem standoff_z_extent_spec (pc104 : PC104Spec) (ps : StandSpec) :
    ((make_pc104_standoff pc104 ps).get? 0).map (fun st => shapeZInterval st.2)
      = some (0, ps.base_plate_thickness)
    ∧ ((make_pc104_standoff pc104 ps).get? 1).map (fun st => shapeZInterval st.2)
      = some (0, ps.standoff_total_height)
    ∧ ((make_pc104_standoff pc104 ps).get? 3).map (fun st => shapeZInterval st.2)
      = some (0, ps.standoff_total_height)
    ∧ ((make_pc104_standoff pc104 ps).get? 5).map (fun st => shapeZInterval st.2)
      = some (0, ps.standoff_total_height)
    ∧ ((make_pc104_standoff pc104 ps).get? 7).map (fun st => shapeZInterval st.2)
      = some (0, ps.standoff_total_height)
    ∧ stand_default.standoff_total_height - stand_default.base_plate_thickness = 7.5 := by
  refine ⟨?_, ?_, ?_, ?_, ?_, ?_⟩ <;>
    first
      | simp [make_pc104_standoff, PC104Spec.hole_coord_list, shapeZInterval, alignInterval]
      | norm_num [stand_default]

/-- Boolean form of an implication, used to state containment claims
without a propositional hypothesis. -/
theorem bool_imp_aux {a b : Bool} (h : a = true → b = true) : (a && !b) = false := by
  cases a
  · rfl
  · simp [h rfl]

/-- C7: for the default specs, no point of any added primitive (the
filleted base plate and the four standoff cylinders) lies outside the
board footprint rectangle of size `box_width_x × box_height_y` anchored at
`box_top_left_coord`, nor outside 0 ≤ z ≤ `standoff_total_height` = 9.5. -/
theorem added_shapes_within_footprint (x y z : ℚ) :
    (memAddedShapes (make_pc104_standoff pc104_default stand_default) x y z
      && !(inFootprint pc104_default stand_default x y z)) = false := by
  apply bool_imp_aux
  intro h
  simp only [memAddedShapes, make_pc104_standoff, PC104Spec.hole_coord_list,
    pc104_default, stand_default, memShape, inIv, cornerKeep, alignInterval,
    PC104Spec.stack_headers_center_coord,
    List.any_cons, List.any_nil, List.flatMap_cons, List.flatMap_nil,
    List.cons_append, List.nil_append, List.append_nil,
    String.reduceEq, reduceIte, beq_iff_eq, Bool.false_eq_true, or_false, false_or,
    Bool.or_eq_true, Bool.and_eq_true, decide_eq_true_eq] at h
  simp only [inFootprint, pc104_default, stand_default,
    Bool.and_eq_true, decide_eq_true_eq]
  rcases h with ⟨⟨⟨hx1, hx2⟩, hy1, hy2⟩, hz1, hz2⟩ | h | h | h | h
  · refine ⟨⟨⟨⟨⟨?_, ?_⟩, ?_⟩, ?_⟩, ?_⟩, ?_⟩ <;> linarith
  · obtain ⟨hxy, hz1, hz2⟩ := h
    norm_num at hxy
    refine ⟨⟨⟨⟨⟨?_, ?_⟩, ?_⟩, ?_⟩, ?_⟩, ?_⟩
    · nlinarith [hxy, mul_self_nonneg (x + 29/10), mul_self_nonneg (y - 127/25)]
    · nlinarith [hxy, mul_self_nonneg (x - 29/10), mul_self_nonneg (y - 127/25)]
    · nlinarith [hxy, mul_self_nonneg (y - 127/25 + 29/10), mul_self_nonneg x]
    · nlinarith [hxy, mul_self_nonneg (y - 127/25 - 29/10), mul_self_nonneg x]
    · linarith
    · linarith
  · obtain ⟨hxy, hz1, hz2⟩ := h
    norm_num at hxy
    refine ⟨⟨⟨⟨⟨?_, ?_⟩, ?_⟩, ?_⟩, ?_⟩, ?_⟩
    · nlinarith [hxy, mul_self_nonneg (x - 8573/100 + 13/4),
        mul_self_nonneg (y - 381/50)]
    · nlinarith [hxy, mul_self_nonneg (x - 8573/100 - 13/4),
        mul_self_nonneg (y - 381/50)]
    · nlinarith [hxy, mul_self_nonneg (y - 381/50 + 13/4),
        mul_self_nonneg (x - 8573/100)]
    · nlinarith [hxy, mul_self_nonneg (y - 381/50 - 13/4),
        mul_self_nonneg (x - 8573/100)]
    · linarith
    · linarith
  · obtain ⟨hxy, hz1, hz2⟩ := h
    norm_num at hxy
    refine ⟨⟨⟨⟨⟨?_, ?_⟩, ?_⟩, ?_⟩, ?_⟩, ?_⟩
    · nlinarith [hxy, mul_self_nonneg (x + 29/10), mul_self_nonneg (y + 3429/50)]
    · nlinarith [hxy, mul_self_nonneg (x - 29/10), mul_self_nonneg (y + 3429/50)]
    · nlinarith [hxy, mul_self_nonneg (y + 3429/50 + 29/10), mul_self_nonneg x]
    · nlinarith [hxy, mul_self_nonneg (y + 3429/50 - 29/10), mul_self_nonneg x]
    · linarith
    · linarith
  · obtain ⟨hxy, hz1, hz2⟩ := h
    norm_num at hxy
    refine ⟨⟨⟨⟨⟨?_, ?_⟩, ?_⟩, ?_⟩, ?_⟩, ?_⟩
    · nlinarith [hxy, mul_self_nonneg (x - 8573/100 + 13/4),
        mul_self_nonneg (y + 7239/100)]
    · nlinarith [hxy, mul_self_nonneg (x - 8573/100 - 13/4),
        mul_self_nonneg (y + 7239/100)]
    · nlinarith [hxy, mul_self_nonneg (y + 7239/100 + 13/4),
        mul_self_nonneg (x - 8573/100)]
    · nlinarith [hxy, mul_self_nonneg (y + 7239/100 - 13/4),
        mul_self_nonneg (x - 8573/100)]
    · linarith
    · linarith
